import Mathlib

/-!
Shallow embedding of the safe query execution layer of the PostgreSQL
admin tool (src/security.js, src/db.js, the CLI menu module, and the
HTTP routes of src/server.js), together with theorems settling the
frozen claims about it.

Strings are modelled as Lean `String` (lists of characters); all the
identifiers and SQL text in play are ASCII, where JavaScript string
semantics (length, toUpperCase, trim) coincide with the model below.
Localized error messages are abstracted into the error kind `Err`.
-/

set_option maxHeartbeats 1000000

namespace PGTool

/-- Error kinds of the layer.  The JavaScript source throws `Error`
objects carrying localized messages; each distinct message key is
modelled as one constructor. -/
inductive Err where
  /-- t('security.invalidIdentifier') -/
  | invalidIdentifier
  /-- t('security.invalidLimit') -/
  | invalidLimit
  /-- t('security.invalidQuery') — thrown by validateCustomQuery on a falsy argument -/
  | invalidQuery
  /-- t('security.readOnlyAllowed') — the NotReadOnly rejection -/
  | notReadOnly
  /-- t('db.notConnected') -/
  | notConnected
  /-- t('db.connectionFailed', \x7bmessage\x7d) — the ConnectionError kind -/
  | connectionFailed
  /-- t('db.queryFailed', \x7bmessage\x7d) — the QueryError kind -/
  | queryFailed
  /-- server.js ad-hoc Error for a missing request field -/
  | emptyInput
deriving DecidableEq, Repr

/-- Character matched by the JavaScript class [a-zA-Z0-9_]. -/
def isWordChar (c : Char) : Bool :=
  ('a' ≤ c && c ≤ 'z') || ('A' ≤ c && c ≤ 'Z') || ('0' ≤ c && c ≤ '9') || c = '_'

/-- Character matched by the JavaScript class [a-zA-Z_] (legal first
character of an identifier). -/
def isLeadChar (c : Char) : Bool :=
  ('a' ≤ c && c ≤ 'z') || ('A' ≤ c && c ≤ 'Z') || c = '_'

/-- ASCII whitespace removed by JavaScript String.prototype.trim. -/
def isJsSpace (c : Char) : Bool :=
  c = ' ' || c = '\t' || c = '\n' || c = '\r' || c = '\x0b' || c = '\x0c'

/-- Drop leading and trailing whitespace from a character list. -/
def jsTrimList (l : List Char) : List Char :=
  ((l.dropWhile isJsSpace).reverse.dropWhile isJsSpace).reverse

/-- Model of JavaScript s.trim(). -/
def jsTrim (s : String) : String := String.mk (jsTrimList s.toList)

/-- Model of JavaScript toUpperCase on one ASCII character. -/
def jsUpperChar (c : Char) : Char :=
  if 'a' ≤ c && c ≤ 'z' then Char.ofNat (c.toNat - 32) else c

/-- Model of JavaScript s.toUpperCase() (ASCII fragment). -/
def jsToUpper (s : String) : String := String.mk (s.toList.map jsUpperChar)

/-- Decide whether the second list is an initial segment of the first. -/
def listStarts : List Char → List Char → Bool
  | _, [] => true
  | [], _ :: _ => false
  | c :: cs, p :: ps => c = p && listStarts cs ps

/-- Model of JavaScript s.startsWith(p). -/
def strStarts (s p : String) : Bool := listStarts s.toList p.toList

/-- Decide whether `p` occurs as a contiguous sublist of the second list. -/
def containsList (p : List Char) : List Char → Bool
  | [] => listStarts [] p
  | c :: cs => listStarts (c :: cs) p || containsList p cs

/-- Model of JavaScript s.includes(sub). -/
def strContains (s sub : String) : Bool := containsList sub.toList s.toList

/-- Test of the regular expression ^[a-zA-Z_][a-zA-Z0-9_]*$ from
SecurityUtils.isValidDatabaseName / isValidTableName. -/
def matchesIdentPattern (s : String) : Bool :=
  match s.toList with
  | [] => false
  | c :: cs => isLeadChar c && cs.all isWordChar

/-- SecurityUtils.isValidDatabaseName (src/security.js lines 23-31):
rejects falsy input, then requires the identifier pattern and
length ≤ 63. -/
def isValidDatabaseName (name : String) : Bool :=
  if name = "" then false
  else matchesIdentPattern name && decide (name.length ≤ 63)

/-- SecurityUtils.isValidTableName (src/security.js lines 40-48):
same rule as database names, duplicated in the source. -/
def isValidTableName (name : String) : Bool :=
  if name = "" then false
  else matchesIdentPattern name && decide (name.length ≤ 63)

/-- SecurityUtils.sanitizeIdentifier (src/security.js lines 60-73):
throws on falsy input, strips every character outside [a-zA-Z0-9_],
then throws if the result is empty or longer than 63 characters. -/
def sanitizeIdentifier (identifier : String) : Except Err String :=
  if identifier = "" then .error .invalidIdentifier
  else
    let clean := String.mk (identifier.toList.filter isWordChar)
    if clean = "" then .error .invalidIdentifier
    else if 63 < clean.length then .error .invalidIdentifier
    else .ok clean

/-- Value of one digit character under a radix, as used by parseInt. -/
def digitVal (radix : Nat) (c : Char) : Option Nat :=
  let v : Nat :=
    if '0' ≤ c && c ≤ '9' then c.toNat - '0'.toNat
    else if 'a' ≤ c && c ≤ 'z' then c.toNat - 'a'.toNat + 10
    else if 'A' ≤ c && c ≤ 'Z' then c.toNat - 'A'.toNat + 10
    else 99
  if v < radix then some v else none

/-- Longest leading run of digit characters valid under the radix. -/
def takeDigits (radix : Nat) : List Char → List Nat
  | [] => []
  | c :: cs =>
    match digitVal radix c with
    | some d => d :: takeDigits radix cs
    | none => []

/-- Value of a digit list read most-significant first. -/
def digitsToNat (radix : Nat) (ds : List Nat) : Nat :=
  ds.foldl (fun a d => a * radix + d) 0

/-- Model of JavaScript parseInt(s) with the radix argument omitted:
skip leading whitespace, an optional sign, then a 0x/0X hexadecimal
marker selects radix 16 (radix 10 otherwise); the longest leading digit
run is parsed and trailing characters are ignored; none models NaN. -/
def jsParseInt (s : String) : Option Int :=
  let l := s.toList.dropWhile isJsSpace
  let sl : Int × List Char :=
    match l with
    | '-' :: rest => (-1, rest)
    | '+' :: rest => (1, rest)
    | _ => (1, l)
  let rl : Nat × List Char :=
    match sl.2 with
    | '0' :: 'x' :: rest => (16, rest)
    | '0' :: 'X' :: rest => (16, rest)
    | _ => (10, sl.2)
  match takeDigits rl.1 rl.2 with
  | [] => none
  | ds => some (sl.1 * (digitsToNat rl.1 ds : Nat))

/-- SecurityUtils.validateLimit (src/security.js lines 85-91):
parseInt, then reject NaN, non-positive values and values above 10000. -/
def validateLimit (limit : String) : Except Err Int :=
  match jsParseInt limit with
  | none => .error .invalidLimit
  | some num =>
    if num ≤ 0 then .error .invalidLimit
    else if 10000 < num then .error .invalidLimit
    else .ok num

/-- Read-only keyword allow-list of SecurityUtils.validateCustomQuery. -/
def readOnlyKeywords : List String := ["SELECT", "WITH", "SHOW", "DESCRIBE", "EXPLAIN"]

/-- SecurityUtils.validateCustomQuery (src/security.js lines 140-158):
throws invalidQuery on falsy input; otherwise accepts exactly when
sql.toUpperCase().trim() starts with a read-only keyword, returning
sql.trim(); rejects with the NotReadOnly error otherwise. -/
def validateCustomQuery (sql : String) : Except Err String :=
  if sql = "" then .error .invalidQuery
  else
    let upperSql := jsTrim (jsToUpper sql)
    if readOnlyKeywords.any (fun k => strStarts upperSql k) then .ok (jsTrim sql)
    else .error .notReadOnly


/-- Row of a query result: an object mapping column names to values. -/
abbrev Row := List (String × String)

/-- Result object returned by the pg driver, as far as the layer
inspects it. -/
structure QRes where
  rows : List Row
  command : String
  rowCount : Int
deriving DecidableEq, Repr

/-- One call into the pg driver: the SQL text with its bind parameters. -/
abbrev Call := String × List String

/-- JavaScript number as stored in the row-count cache: an integer or NaN. -/
inductive JNum where
  | int (n : Int)
  | nan
deriving DecidableEq, Repr

/-- JavaScript truthiness of a number: 0 and NaN are falsy. -/
def JNum.truthy : JNum → Bool
  | .int n => n != 0
  | .nan => false

/-- Value held in one cache entry: a rows array (an object, hence always
truthy in JavaScript) or a number. -/
inductive CVal where
  | rows (r : List Row)
  | num (n : JNum)
deriving DecidableEq, Repr

/-- JavaScript truthiness of a cached value. -/
def CVal.truthy : CVal → Bool
  | .rows _ => true
  | .num n => n.truthy

/-- Read a cached value at rows type (the shape it has under the
databases/tables keys). -/
def CVal.asRows : CVal → List Row
  | .rows r => r
  | .num _ => []

/-- Read a cached value at number type (the shape it has under the
rowcount keys). -/
def CVal.asNum : CVal → JNum
  | .rows _ => .nan
  | .num n => n

/-- Cache contents: association list from key to value and the
Date.now() timestamp recorded by setCache. -/
abbrev Cache := List (String × CVal × Nat)

/-- Lookup in the cache map. -/
def cacheLookup (cache : Cache) (key : String) : Option (CVal × Nat) :=
  (cache.find? (fun e => e.1 == key)).map (·.2)

/-- Map.delete on the cache. -/
def cacheErase (cache : Cache) (key : String) : Cache :=
  cache.filter (fun e => e.1 != key)

/-- Cache expiry time this.cacheTimeout = 30000 ms (src/db.js line 40). -/
def cacheTimeout : Nat := 30000

/-- State of one DatabaseConnection instance: the pool handle (none when
disconnected), the configured database name, and the result cache. -/
structure Conn where
  pool : Option Unit
  database : String
  cache : Cache
deriving DecidableEq, Repr

/-- Environment abstracting the PostgreSQL engine: the response to each
issued statement, and whether pool creation plus the SELECT NOW()
liveness probe succeeds against a given database. -/
structure Env where
  runQuery : String → List String → Except Unit QRes
  connectOk : String → Bool

/-- DatabaseConnection.setCache (src/db.js lines 118-123): store the
value under the key with the current timestamp, overwriting any prior
entry. -/
def setCache (st : Conn) (now : Nat) (key : String) (v : CVal) : Conn :=
  { st with cache := (key, v, now) :: cacheErase st.cache key }

/-- DatabaseConnection.getCache (src/db.js lines 131-138): return the
value while now - timestamp < 30000 ms; otherwise delete the key and
return null (modelled as none).  Date.now() is the explicit now
argument. -/
def getCache (st : Conn) (now : Nat) (key : String) : Option CVal × Conn :=
  match cacheLookup st.cache key with
  | some vt =>
    if now - vt.2 < cacheTimeout then (some vt.1, st)
    else (none, { st with cache := cacheErase st.cache key })
  | none => (none, { st with cache := cacheErase st.cache key })

/-- DatabaseConnection.clearCache (src/db.js lines 143-145). -/
def clearCache (st : Conn) : Conn := { st with cache := [] }

/-- DatabaseConnection.connect (src/db.js lines 48-57): this.pool is
assigned the freshly created pool first, then the SELECT NOW() probe
runs; on probe failure a connectionFailed error is thrown and the
source does NOT reset this.pool, so the new pool handle stays in
place. -/
def connect (env : Env) (st : Conn) : Except Err Unit × Conn :=
  let st1 : Conn := { st with pool := some () }
  if env.connectOk st.database then (.ok (), st1)
  else (.error .connectionFailed, st1)

/-- DatabaseConnection.disconnect (src/db.js lines 63-68): idempotent
pool teardown. -/
def disconnect (st : Conn) : Conn := { st with pool := none }

/-- DatabaseConnection.query (src/db.js lines 76-86): notConnected when
no pool exists; otherwise the statement goes to the engine, and an
engine rejection is rethrown as queryFailed.  The second component
records the calls issued to the driver. -/
def connQuery (env : Env) (st : Conn) (sql : String) (params : List String) :
    Except Err QRes × List Call :=
  match st.pool with
  | none => (.error .notConnected, [])
  | some _ =>
    match env.runQuery sql params with
    | .ok r => (.ok r, [(sql, params)])
    | .error _ => (.error .queryFailed, [(sql, params)])

/-- Model of JavaScript s.replace(pat, rep) with a string pattern:
replace the first occurrence only. -/
def replaceFirstList (pat rep : List Char) : List Char → List Char
  | [] => if listStarts [] pat then rep else []
  | c :: cs =>
    if listStarts (c :: cs) pat then rep ++ (c :: cs).drop pat.length
    else c :: replaceFirstList pat rep cs

/-- Model of JavaScript s.replace(pat, rep) on strings. -/
def replaceFirst (s pat rep : String) : String :=
  String.mk (replaceFirstList pat.toList rep.toList s.toList)

/-- DatabaseConnection.safeIdentifierQuery (src/db.js lines 106-110):
sanitize the identifier, substitute it double-quoted for the
"{identifier}" placeholder, then run the query. -/
def safeIdentifierQuery (env : Env) (st : Conn) (sql identifier : String)
    (params : List String) : Except Err QRes × List Call :=
  match sanitizeIdentifier identifier with
  | .error e => (.error e, [])
  | .ok safeId =>
    connQuery env st (replaceFirst sql "{identifier}" ("\"" ++ safeId ++ "\"")) params

/-- Statement issued by listDatabases. -/
def listDatabasesSql : String :=
  "SELECT datname FROM pg_database WHERE datistemplate = false ORDER BY datname"

/-- Cache-miss path of listDatabases: execute and populate the cache. -/
def listDatabasesRun (env : Env) (now : Nat) (st : Conn) :
    Except Err (List Row) × Conn × List Call :=
  match connQuery env st listDatabasesSql [] with
  | (.ok r, calls) => (.ok r.rows, setCache st now "databases" (.rows r.rows), calls)
  | (.error e, calls) => (.error e, st, calls)

/-- DatabaseConnection.listDatabases (src/db.js lines 152-164): return
the cached rows when getCache yields a truthy value, else query and
populate the cache. -/
def listDatabases (env : Env) (now : Nat) (st : Conn) :
    Except Err (List Row) × Conn × List Call :=
  let gc := getCache st now "databases"
  match gc.1 with
  | some v =>
    if v.truthy then (.ok v.asRows, gc.2, [])
    else listDatabasesRun env now gc.2
  | none => listDatabasesRun env now gc.2

/-- Statement issued by listTables (template literal of src/db.js
lines 218-220). -/
def listTablesSql : String :=
  "SELECT table_name FROM information_schema.tables\n       WHERE table_schema = 'public'\n       ORDER BY table_name"

/-- Cache-miss path of listTables: execute and populate the cache. -/
def listTablesRun (env : Env) (now : Nat) (st : Conn) :
    Except Err (List Row) × Conn × List Call :=
  match connQuery env st listTablesSql [] with
  | (.ok r, calls) =>
    (.ok r.rows, setCache st now ("tables_" ++ st.database) (.rows r.rows), calls)
  | (.error e, calls) => (.error e, st, calls)

/-- DatabaseConnection.listTables (src/db.js lines 210-224): key
tables_<database>; return the cached rows when getCache yields a truthy
value, else query and populate the cache. -/
def listTables (env : Env) (now : Nat) (st : Conn) :
    Except Err (List Row) × Conn × List Call :=
  let gc := getCache st now ("tables_" ++ st.database)
  match gc.1 with
  | some v =>
    if v.truthy then (.ok v.asRows, gc.2, [])
    else listTablesRun env now gc.2
  | none => listTablesRun env now gc.2

/-- Statement issued by describeTable (template literal of src/db.js
lines 238-246). -/
def describeTableSql : String :=
  "SELECT\n        column_name,\n        data_type,\n        character_maximum_length,\n        is_nullable,\n        column_default\n       FROM information_schema.columns\n       WHERE table_name = $1\n       ORDER BY ordinal_position"

/-- DatabaseConnection.describeTable (src/db.js lines 232-250): validate
the table name, then query information_schema with the name passed as a
bind parameter; the cache is never consulted nor populated, so the
state is returned unchanged. -/
def describeTable (env : Env) (st : Conn) (tableName : String) :
    Except Err (List Row) × Conn × List Call :=
  if isValidTableName tableName then
    match connQuery env st describeTableSql [tableName] with
    | (.ok r, calls) => (.ok r.rows, st, calls)
    | (.error e, calls) => (.error e, st, calls)
  else (.error .invalidIdentifier, st, [])

/-- Field lookup on a row object; a missing field reads as the empty
string, whose parse is NaN. -/
def rowField (r : Row) (k : String) : String :=
  ((r.find? (fun p => p.1 == k)).map (·.2)).getD ""

/-- parseInt(result.rows[0].count) from getTableRowCount.  On an empty
rows array JavaScript would throw a TypeError reading rows[0].count;
the claims never exercise that case and the model yields NaN there. -/
def countOf (res : QRes) : JNum :=
  match jsParseInt (rowField (res.rows.headD []) "count") with
  | some n => .int n
  | none => .nan

/-- Cache-miss path of getTableRowCount: run the sanitized COUNT query,
parse the count and populate the cache. -/
def getTableRowCountRun (env : Env) (now : Nat) (st : Conn) (tableName : String) :
    Except Err JNum × Conn × List Call :=
  match safeIdentifierQuery env st "SELECT COUNT(*) FROM {identifier}" tableName [] with
  | (.ok r, calls) =>
    (.ok (countOf r), setCache st now ("rowcount_" ++ tableName) (.num (countOf r)), calls)
  | (.error e, calls) => (.error e, st, calls)

/-- DatabaseConnection.getTableRowCount (src/db.js lines 258-276):
validate the name; return the cached count when getCache yields a
truthy value (so a cached count of 0 falls through to the query), else
query and populate the cache. -/
def getTableRowCount (env : Env) (now : Nat) (st : Conn) (tableName : String) :
    Except Err JNum × Conn × List Call :=
  if isValidTableName tableName then
    let gc := getCache st now ("rowcount_" ++ tableName)
    match gc.1 with
    | some v =>
      if v.truthy then (.ok v.asNum, gc.2, [])
      else getTableRowCountRun env now gc.2 tableName
    | none => getTableRowCountRun env now gc.2 tableName
  else (.error .invalidIdentifier, st, [])

/-- DatabaseConnection.createDatabase (src/db.js lines 170-176):
validate, execute, then clear the whole cache. -/
def createDatabase (env : Env) (st : Conn) (name : String) :
    Except Err Unit × Conn × List Call :=
  if isValidDatabaseName name then
    match connQuery env st ("CREATE DATABASE \"" ++ name ++ "\"") [] with
    | (.ok _, calls) => (.ok (), clearCache st, calls)
    | (.error e, calls) => (.error e, st, calls)
  else (.error .invalidIdentifier, st, [])

/-- DatabaseConnection.dropDatabase (src/db.js lines 182-188):
validate, execute, then clear the whole cache. -/
def dropDatabase (env : Env) (st : Conn) (name : String) :
    Except Err Unit × Conn × List Call :=
  if isValidDatabaseName name then
    match connQuery env st ("DROP DATABASE IF EXISTS \"" ++ name ++ "\"") [] with
    | (.ok _, calls) => (.ok (), clearCache st, calls)
    | (.error e, calls) => (.error e, st, calls)
  else (.error .invalidIdentifier, st, [])

/-- DatabaseConnection.switchDatabase (src/db.js lines 195-203):
validate, disconnect, set config.database, clear the cache, then
reconnect (the probe of connect is not routed through query, so no
driver call is recorded). -/
def switchDatabase (env : Env) (st : Conn) (name : String) :
    Except Err Unit × Conn × List Call :=
  if isValidDatabaseName name then
    let c := connect env (clearCache { disconnect st with database := name })
    (c.1, c.2, [])
  else (.error .invalidIdentifier, st, [])

/-- Body of the CLI create-table action (menu module lines 402-404),
reached after the inquirer prompt loop: inquirer re-prompts until the
trimmed name satisfies isValidTableName and the trimmed schema passes
validateTableSchema, then the raw answers are interpolated; on success
clearCache runs. -/
def cliCreateTable (env : Env) (st : Conn) (name sql : String) :
    Except Err Unit × Conn × List Call :=
  match connQuery env st ("CREATE TABLE \"" ++ name ++ "\" (" ++ sql ++ ")") [] with
  | (.ok _, calls) => (.ok (), clearCache st, calls)
  | (.error e, calls) => (.error e, st, calls)

/-- CLI drop-table action after the table choice (menu module lines
434-440): when confirmed, the DROP TABLE statement runs and — unlike
createTable and the database mutations — no clearCache call follows. -/
def cliDropTable (env : Env) (st : Conn) (table : String) (confirm : Bool) :
    Except Err Unit × Conn × List Call :=
  if confirm then
    match connQuery env st ("DROP TABLE \"" ++ table ++ "\"") [] with
    | (.ok _, calls) => (.ok (), st, calls)
    | (.error e, calls) => (.error e, st, calls)
  else (.ok (), st, [])

/-- CLI custom-query flow (menu module lines 448-471): the inquirer
validate callback rejects (re-prompting, modelled as none) unless the
trimmed input is nonempty and validateCustomQuery accepts it; the
accepted raw input is then executed. -/
def cliCustomQuery (env : Env) (st : Conn) (input : String) :
    Option (Except Err QRes × List Call) :=
  if jsTrim input = "" then none
  else
    match validateCustomQuery (jsTrim input) with
    | .error _ => none
    | .ok _ => some (connQuery env st input [])

/-- Route POST /api/query (src/server.js lines 354-383): requires a
connection and a nonempty sql field, then executes the statement as
received; no read-only validation is performed. -/
def apiQuery (env : Env) (dbOpt : Option Conn) (sql : String) :
    Except Err QRes × List Call :=
  match dbOpt with
  | none => (.error .notConnected, [])
  | some st =>
    if sql = "" then (.error .emptyInput, [])
    else connQuery env st sql []

/-- Route POST /api/tables (src/server.js lines 238-262): requires a
connection and nonempty name/columns fields, then interpolates both
verbatim into the CREATE TABLE statement; no identifier validation is
performed. -/
def apiCreateTable (env : Env) (dbOpt : Option Conn) (name columns : String) :
    Except Err QRes × List Call :=
  match dbOpt with
  | none => (.error .notConnected, [])
  | some st =>
    if name = "" then (.error .emptyInput, [])
    else if columns = "" then (.error .emptyInput, [])
    else connQuery env st ("CREATE TABLE \"" ++ name ++ "\" (" ++ columns ++ ")") []

/-- Route GET /api/tables/:name/data (src/server.js lines 292-314): the
path parameter and the limit query parameter (default 100 when absent
or empty) are interpolated verbatim into the SELECT; no validation is
performed. -/
def apiTableData (env : Env) (dbOpt : Option Conn) (name : String)
    (limit : Option String) : Except Err QRes × List Call :=
  match dbOpt with
  | none => (.error .notConnected, [])
  | some st =>
    let lim := match limit with
      | some l => if l = "" then "100" else l
      | none => "100"
    connQuery env st ("SELECT * FROM \"" ++ name ++ "\" LIMIT " ++ lim) []

/-- Environment in which every statement succeeds with an empty result
and connection probes succeed. -/
def envOK : Env where
  runQuery := fun _ _ => .ok { rows := [], command := "OK", rowCount := 0 }
  connectOk := fun _ => true

/-- Environment whose statements and liveness probes always fail. -/
def envDown : Env where
  runQuery := fun _ _ => .error ()
  connectOk := fun _ => false

/-- Environment answering every statement with a single row whose count
field is 0, as the engine does for COUNT(*) on an empty table. -/
def envCount0 : Env where
  runQuery := fun _ _ => .ok { rows := [[("count", "0")]], command := "SELECT", rowCount := 1 }
  connectOk := fun _ => true

/-- Connected state with an empty cache on database postgres. -/
def conn0 : Conn := { pool := some (), database := "postgres", cache := [] }

/-! Specification-side definitions, written from the claims' words, to
be compared with the source-derived functions above. -/

/-- Wording of claim C6: remove every character outside [A-Za-z0-9_];
fail with InvalidIdentifier exactly when the result is empty or exceeds
63 characters. -/
def sanitizeSpec (s : String) : Except Err String :=
  let r := String.mk (s.toList.filter isWordChar)
  if r = "" ∨ 63 < r.length then .error .invalidIdentifier else .ok r

/-- Wording of claim C7: parse to an integer n, succeed returning n
exactly when 0 < n ≤ 10000, fail with InvalidLimit otherwise. -/
def validateLimitSpec (raw : String) : Except Err Int :=
  match jsParseInt raw with
  | some n => if 0 < n ∧ n ≤ 10000 then .ok n else .error .invalidLimit
  | none => .error .invalidLimit

/-- Wording of claim C5 as amended: a nonempty sql succeeds returning
its trim exactly when the upper-cased trimmed text begins with a
read-only keyword, and fails with NotReadOnly otherwise; the empty
string fails with InvalidQuery. -/
def validateReadOnlySpec (sql : String) : Except Err String :=
  if sql = "" then .error .invalidQuery
  else if readOnlyKeywords.any (fun k => strStarts (jsToUpper (jsTrim sql)) k) then
    .ok (jsTrim sql)
  else .error .notReadOnly

/-- State exhibiting the drop-table cache bug: the table list for
testdb is cached. -/
def connC2 : Conn :=
  { pool := some (), database := "testdb",
    cache := [("tables_testdb", .rows [[("table_name", "t")]], 0)] }

/-- State exhibiting the falsy-cache miss: a fresh cache entry records
row count 0 for table t. -/
def connC9 : Conn :=
  { pool := some (), database := "postgres",
    cache := [("rowcount_t", .num (.int 0), 0)] }

/-- Table name used to exhibit the unvalidated interpolation of the
HTTP API: it contains quotes, spaces and a semicolon. -/
def badName : String := "x\"; DROP TABLE \"users"



/-! Helper lemmas. -/

/-- Uppercasing never turns a letter into whitespace or vice versa. -/
theorem isJsSpace_jsUpperChar (c : Char) : isJsSpace (jsUpperChar c) = isJsSpace c := by
  unfold jsUpperChar
  split
  · next h =>
    simp only [Bool.and_eq_true, decide_eq_true_eq] at h
    have h1 : 97 ≤ c.toNat := h.1
    have h2 : c.toNat ≤ 122 := h.2
    have hr : isJsSpace c = false := by
      unfold isJsSpace
      simp only [Bool.or_eq_false_iff, decide_eq_false_iff_not]
      refine ⟨⟨⟨⟨⟨?_, ?_⟩, ?_⟩, ?_⟩, ?_⟩, ?_⟩ <;>
        · rintro rfl; revert h1; decide
    rw [hr]
    have h32 : 65 ≤ c.toNat - 32 ∧ c.toNat - 32 ≤ 90 := ⟨by omega, by omega⟩
    generalize hn : c.toNat - 32 = n at h32
    obtain ⟨hn1, hn2⟩ := h32
    interval_cases n <;> decide
  · rfl

/-- dropWhile commutes with a character map that preserves the predicate. -/
theorem dropWhile_map_of_pres (u : Char → Char) (p : Char → Bool)
    (hp : ∀ c, p (u c) = p c) (l : List Char) :
    (l.map u).dropWhile p = (l.dropWhile p).map u := by
  induction l with
  | nil => rfl
  | cons c cs ih =>
    simp only [List.map_cons, List.dropWhile_cons, hp c]
    split <;> simp [ih]

/-- Trimming commutes with uppercasing on character lists. -/
theorem jsTrimList_map_upper (l : List Char) :
    jsTrimList (l.map jsUpperChar) = (jsTrimList l).map jsUpperChar := by
  unfold jsTrimList
  rw [dropWhile_map_of_pres jsUpperChar isJsSpace isJsSpace_jsUpperChar,
    ← List.map_reverse, dropWhile_map_of_pres jsUpperChar isJsSpace isJsSpace_jsUpperChar,
    ← List.map_reverse]

/-- Model counterpart of the fact that s.toUpperCase().trim() equals
s.trim().toUpperCase(). -/
theorem jsTrim_jsToUpper (s : String) : jsTrim (jsToUpper s) = jsToUpper (jsTrim s) := by
  unfold jsTrim jsToUpper
  exact congrArg String.mk (jsTrimList_map_upper s.toList)

/-- Claim C6 (confirmed): sanitize strips every character outside
[A-Za-z0-9_] and fails with InvalidIdentifier exactly when the stripped
result is empty or exceeds 63 characters; sanitize of "drop;--x" is
"dropx" and sanitize of the empty string fails. -/
theorem claim_C6_sanitize :
    (∀ s, sanitizeIdentifier s = sanitizeSpec s) ∧
    sanitizeIdentifier "drop;--x" = .ok "dropx" ∧
    sanitizeIdentifier "" = .error .invalidIdentifier := by
  refine ⟨fun s => ?_, rfl, rfl⟩
  by_cases hs : s = ""
  · subst hs; rfl
  · unfold sanitizeIdentifier sanitizeSpec
    rw [if_neg hs]
    dsimp only
    split_ifs <;> first | rfl | tauto

/-- Claim C7 (confirmed): validateLimit parses its input with parseInt
and succeeds returning n exactly when 0 < n ≤ 10000, failing with
InvalidLimit otherwise; "0" and "10001" fail, "10000" returns 10000. -/
theorem claim_C7_validateLimit :
    (∀ raw, validateLimit raw = validateLimitSpec raw) ∧
    validateLimit "0" = .error .invalidLimit ∧
    validateLimit "10001" = .error .invalidLimit ∧
    validateLimit "10000" = .ok 10000 := by
  refine ⟨fun raw => ?_, rfl, rfl, rfl⟩
  unfold validateLimit validateLimitSpec
  cases hj : jsParseInt raw <;> simp only [hj]
  next n => split_ifs <;> first | rfl | omega

/-- Claim C5 (corrected), counterexample: the empty string does not
begin with a read-only keyword, yet validateCustomQuery rejects it with
the InvalidQuery error rather than the NotReadOnly error the claim
names. -/
theorem claim_C5_counterexample :
    validateCustomQuery "" = .error .invalidQuery ∧ Err.invalidQuery ≠ Err.notReadOnly :=
  ⟨rfl, by decide⟩

/-- Claim C5 as amended: for every string sql, validateCustomQuery
succeeds returning the trimmed string exactly when the upper-cased
trimmed text begins with SELECT, WITH, SHOW, DESCRIBE or EXPLAIN, and
otherwise fails with NotReadOnly — except the empty string, which fails
with InvalidQuery; the spec's examples hold. -/
theorem claim_C5_validateReadOnly :
    (∀ sql, validateCustomQuery sql = validateReadOnlySpec sql) ∧
    validateCustomQuery "select * from t" = .ok "select * from t" ∧
    validateCustomQuery "insert into t values (1)" = .error .notReadOnly := by
  refine ⟨fun sql => ?_, rfl, rfl⟩
  unfold validateCustomQuery validateReadOnlySpec
  rw [jsTrim_jsToUpper]

/-! Cache lemmas. -/

/-- Lookup of the key just set. -/
theorem cacheLookup_cons_self (k : String) (v : CVal) (t : Nat) (rest : Cache) :
    cacheLookup ((k, v, t) :: rest) k = some (v, t) := by
  simp [cacheLookup, List.find?_cons]

/-- Erasing the key just set erases it from the tail as well. -/
theorem cacheErase_cons_self (k : String) (v : CVal) (t : Nat) (rest : Cache) :
    cacheErase ((k, v, t) :: rest) k = cacheErase rest k := by
  simp [cacheErase, List.filter_cons]

/-- Erasure is idempotent. -/
theorem cacheErase_idem (cache : Cache) (k : String) :
    cacheErase (cacheErase cache k) k = cacheErase cache k := by
  simp [cacheErase, List.filter_filter]

/-- A key is gone after its erasure. -/
theorem cacheLookup_erase (cache : Cache) (k : String) :
    cacheLookup (cacheErase cache k) k = none := by
  induction cache with
  | nil => rfl
  | cons e rest ih =>
    by_cases h : e.1 = k
    · simp [cacheErase, List.filter_cons, h] at ih ⊢; exact ih
    · simp [cacheErase, cacheLookup, List.filter_cons, List.find?_cons, h]

/-- Erasing an absent key is a no-op. -/
theorem cacheErase_of_lookup_none (cache : Cache) (k : String)
    (h : cacheLookup cache k = none) : cacheErase cache k = cache := by
  have h2 : cache.find? (fun e => e.1 == k) = none := Option.map_eq_none'.mp h
  apply List.filter_eq_self.mpr
  intro a ha
  simpa using List.find?_eq_none.mp h2 a ha

/-- Reading a freshly set key within the TTL returns the value and
leaves the state unchanged. -/
theorem getCache_setCache_fresh (st : Conn) (t : Nat) (k : String) (v : CVal) (now : Nat)
    (h : now - t < cacheTimeout) :
    getCache (setCache st t k v) now k = (some v, setCache st t k v) := by
  unfold getCache
  rw [show (setCache st t k v).cache = (k, v, t) :: cacheErase st.cache k from rfl,
    cacheLookup_cons_self]
  simp [h]

/-- Reading a set key after the TTL evicts it. -/
theorem getCache_setCache_stale (st : Conn) (t : Nat) (k : String) (v : CVal) (now : Nat)
    (h : ¬ now - t < cacheTimeout) :
    getCache (setCache st t k v) now k = (none, { st with cache := cacheErase st.cache k }) := by
  unfold getCache
  rw [show (setCache st t k v).cache = (k, v, t) :: cacheErase st.cache k from rfl,
    cacheLookup_cons_self]
  simp only [h, if_false, if_neg h]
  rw [cacheErase_cons_self, cacheErase_idem]
  rfl

/-- Reading an absent key returns none and leaves the state unchanged. -/
theorem getCache_none (st : Conn) (now : Nat) (k : String)
    (h : cacheLookup st.cache k = none) : getCache st now k = (none, st) := by
  unfold getCache
  rw [h, cacheErase_of_lookup_none st.cache k h]

/-- Claim C8 (confirmed): after set(k, v) at time t, a get(k) less than
30000 ms later returns v; once 30000 ms have elapsed, get(k) returns
absent and evicts k, every later get still reports absent, and only a
subsequent set repopulates the key. -/
theorem claim_C8_cache_ttl (st : Conn) (k : String) (v : CVal) (t now : Nat) :
    (now - t < 30000 → getCache (setCache st t k v) now k = (some v, setCache st t k v)) ∧
    (30000 ≤ now - t →
      (getCache (setCache st t k v) now k).1 = none ∧
      (∀ now2, (getCache ((getCache (setCache st t k v) now k).2) now2 k).1 = none) ∧
      (∀ t2 v2 now3, now3 - t2 < 30000 →
        (getCache (setCache ((getCache (setCache st t k v) now k).2) t2 k v2) now3 k).1
          = some v2)) := by
  constructor
  · exact fun h => getCache_setCache_fresh st t k v now h
  · intro h
    have hstale := getCache_setCache_stale st t k v now (by show ¬ now - t < 30000; omega)
    refine ⟨by rw [hstale], ?_, ?_⟩
    · intro now2
      rw [hstale, getCache_none _ now2 k (cacheLookup_erase st.cache k)]
    · intro t2 v2 now3 h3
      rw [hstale, getCache_setCache_fresh _ t2 k v2 now3 h3]

/-- Witness for claim C8 at concrete inputs. -/
theorem claim_C8_cache_ttl_witness :
    getCache (setCache conn0 0 "k" (.num (.int 7))) 29999 "k"
      = (some (.num (.int 7)), setCache conn0 0 "k" (.num (.int 7))) ∧
    (getCache (setCache conn0 0 "k" (.num (.int 7))) 30000 "k").1 = none ∧
    (getCache ((getCache (setCache conn0 0 "k" (.num (.int 7))) 30000 "k").2) 50000 "k").1
      = none ∧
    (getCache (setCache ((getCache (setCache conn0 0 "k" (.num (.int 7))) 30000 "k").2)
        60000 "k" (.num (.int 9))) 60000 "k").1 = some (.num (.int 9)) :=
  ⟨(claim_C8_cache_ttl conn0 "k" (.num (.int 7)) 0 29999).1 (by decide),
    ((claim_C8_cache_ttl conn0 "k" (.num (.int 7)) 0 30000).2 (by decide)).1,
    ((claim_C8_cache_ttl conn0 "k" (.num (.int 7)) 0 30000).2 (by decide)).2.1 50000,
    ((claim_C8_cache_ttl conn0 "k" (.num (.int 7)) 0 30000).2 (by decide)).2.2 60000
      (.num (.int 9)) 60000 (by decide)⟩

/-- Claim C3 (corrected), counterexample: with a failing liveness probe
connect raises the ConnectionError, but the manager retains the
just-created pool handle, and a subsequent query on it fails as a
QueryError from that broken pool — not with the NotConnected condition
the claim requires. -/
theorem claim_C3_counterexample :
    (connect envDown { pool := none, database := "postgres", cache := [] }).1
        = .error .connectionFailed ∧
    (connect envDown { pool := none, database := "postgres", cache := [] }).2.pool = some () ∧
    (connQuery envDown (connect envDown { pool := none, database := "postgres", cache := [] }).2
        "SELECT 1" []).1 = .error .queryFailed :=
  ⟨rfl, rfl, rfl⟩

/-- Claim C3 as amended: if the pool creation / liveness probe fails,
connect raises ConnectionError, but the just-created pool handle is
retained rather than discarded, so a subsequent execute never fails
with the NotConnected condition; a successful probe connects
normally. -/
theorem claim_C3_connect (env : Env) (st : Conn) :
    (env.connectOk st.database = false →
      connect env st = (.error .connectionFailed, { st with pool := some () }) ∧
      ∀ sql params,
        (connQuery env { st with pool := some () } sql params).1 ≠ .error .notConnected) ∧
    (env.connectOk st.database = true →
      connect env st = (.ok (), { st with pool := some () })) := by
  constructor
  · intro h
    constructor
    · simp [connect, h]
    · intro sql params
      unfold connQuery
      cases henv : env.runQuery sql params <;> simp [henv]
  · intro h
    simp [connect, h]

/-- Witness for claim C3 at concrete inputs. -/
theorem claim_C3_connect_witness :
    connect envDown { pool := none, database := "d", cache := [] }
      = (.error .connectionFailed, { pool := some (), database := "d", cache := [] }) ∧
    (connQuery envDown { pool := some (), database := "d", cache := [] }
        "SELECT NOW()" []).1 ≠ .error .notConnected ∧
    connect envOK { pool := none, database := "d", cache := [] }
      = (.ok (), { pool := some (), database := "d", cache := [] }) :=
  ⟨((claim_C3_connect envDown { pool := none, database := "d", cache := [] }).1 rfl).1,
    ((claim_C3_connect envDown { pool := none, database := "d", cache := [] }).1 rfl).2
      "SELECT NOW()" [],
    (claim_C3_connect envOK { pool := none, database := "d", cache := [] }).2 rfl⟩

/-- Claim C2 (code_bug): the CLI drop-table action, run at a state
whose cache holds the table list, succeeds yet returns the state with
the cache fully intact — the source omits after DROP TABLE the
clearCache call that createTable, createDatabase, dropDatabase and
switchDatabase all perform, so the dropped table keeps being listed
from the cache for up to 30 s. -/
theorem claim_C2_dropTable_keeps_cache :
    cliDropTable envOK connC2 "t" true
      = (.ok (), connC2, [("DROP TABLE \"t\"", [])]) ∧ connC2.cache ≠ [] :=
  ⟨rfl, by decide⟩

/-- A letter or underscore is a word character. -/
theorem isWordChar_of_isLeadChar (c : Char) (h : isLeadChar c = true) : isWordChar c = true := by
  simp only [isLeadChar, Bool.or_eq_true] at h
  simp only [isWordChar, Bool.or_eq_true]
  tauto

/-- A name accepted by isValidTableName consists only of word
characters, so sanitizeIdentifier returns it unchanged. -/
theorem sanitizeIdentifier_of_valid (name : String) (h : isValidTableName name = true) :
    sanitizeIdentifier name = .ok name := by
  unfold isValidTableName at h
  by_cases hn : name = ""
  · rw [if_pos hn] at h; exact absurd h (by simp)
  · rw [if_neg hn] at h
    simp only [Bool.and_eq_true, decide_eq_true_eq] at h
    obtain ⟨hpat, hlen⟩ := h
    have hfilter : name.toList.filter isWordChar = name.toList := by
      apply List.filter_eq_self.mpr
      intro a ha
      unfold matchesIdentPattern at hpat
      cases hl : name.toList with
      | nil => rw [hl] at ha; cases ha
      | cons c cs =>
        rw [hl] at hpat ha
        simp only [Bool.and_eq_true] at hpat
        rcases List.mem_cons.mp ha with rfl | hmem
        · exact isWordChar_of_isLeadChar a hpat.1
        · exact List.all_eq_true.mp hpat.2 a hmem
    unfold sanitizeIdentifier
    rw [if_neg hn]
    dsimp only
    rw [hfilter, show String.mk name.toList = name from rfl, if_neg hn, if_neg (by omega)]

/-- Substituting the identifier placeholder in the COUNT template. -/
theorem replaceFirst_count_sql (x : String) :
    replaceFirst "SELECT COUNT(*) FROM {identifier}" "{identifier}" x
      = "SELECT COUNT(*) FROM " ++ x := by
  have h : replaceFirstList "{identifier}".toList x.toList
      "SELECT COUNT(*) FROM {identifier}".toList
      = "SELECT COUNT(*) FROM ".toList ++ (x.toList ++ []) := rfl
  unfold replaceFirst
  rw [h, List.append_nil]
  rfl

/-- Reassociation of the quoted identifier inside the COUNT statement. -/
theorem count_sql_quote (name : String) :
    "SELECT COUNT(*) FROM " ++ ("\"" ++ name ++ "\"")
      = "SELECT COUNT(*) FROM \"" ++ name ++ "\"" := by
  rw [← String.append_assoc, ← String.append_assoc]
  rfl

/-- Claim C9 (corrected), counterexample: at time 0 the state holds a
fresh (age 0 ms) cache entry for the key rowcount_t, yet
getTableRowCount still issues a COUNT query to the database — the
cached count 0 is falsy in JavaScript, so the cache check treats it as
a miss. -/
theorem claim_C9_counterexample :
    cacheLookup connC9.cache "rowcount_t" = some (.num (.int 0), 0) ∧
    (getTableRowCount envCount0 0 connC9 "t").2.2
      = [("SELECT COUNT(*) FROM \"t\"", [])] :=
  ⟨rfl, rfl⟩

/-- Claim C9 as amended: with a fresh cache entry holding a truthy
value, listDatabases, listTables and getTableRowCount return the cached
value without issuing any database call (row arrays are always truthy,
but a cached count of 0 is falsy and treated as a miss, as the
counterexample shows); on an absent key each executes its query and
populates the cache; describeTable never consults nor populates the
cache. -/
theorem claim_C9_metadata_cache :
    (∀ env now (st : Conn) v ts, cacheLookup st.cache "databases" = some (v, ts) →
      now - ts < 30000 → v.truthy = true →
      listDatabases env now st = (.ok v.asRows, st, [])) ∧
    (∀ env now (st : Conn) v ts,
      cacheLookup st.cache ("tables_" ++ st.database) = some (v, ts) →
      now - ts < 30000 → v.truthy = true →
      listTables env now st = (.ok v.asRows, st, [])) ∧
    (∀ env now (st : Conn) name v ts, isValidTableName name = true →
      cacheLookup st.cache ("rowcount_" ++ name) = some (v, ts) →
      now - ts < 30000 → v.truthy = true →
      getTableRowCount env now st name = (.ok v.asNum, st, [])) ∧
    (∀ env now (st : Conn) r, cacheLookup st.cache "databases" = none →
      st.pool = some () → env.runQuery listDatabasesSql [] = .ok r →
      listDatabases env now st
        = (.ok r.rows, setCache st now "databases" (.rows r.rows), [(listDatabasesSql, [])])) ∧
    (∀ env now (st : Conn) r, cacheLookup st.cache ("tables_" ++ st.database) = none →
      st.pool = some () → env.runQuery listTablesSql [] = .ok r →
      listTables env now st
        = (.ok r.rows, setCache st now ("tables_" ++ st.database) (.rows r.rows),
           [(listTablesSql, [])])) ∧
    (∀ env now (st : Conn) name r, isValidTableName name = true →
      cacheLookup st.cache ("rowcount_" ++ name) = none →
      st.pool = some () →
      env.runQuery ("SELECT COUNT(*) FROM \"" ++ name ++ "\"") [] = .ok r →
      getTableRowCount env now st name
        = (.ok (countOf r), setCache st now ("rowcount_" ++ name) (.num (countOf r)),
           [("SELECT COUNT(*) FROM \"" ++ name ++ "\"", [])])) ∧
    (∀ env (st : Conn) name, (describeTable env st name).2.1 = st) := by
  refine ⟨?_, ?_, ?_, ?_, ?_, ?_, ?_⟩
  · intro env now st v ts hl hf ht
    unfold listDatabases getCache
    rw [hl]
    simp [show now - ts < cacheTimeout from hf, ht]
  · intro env now st v ts hl hf ht
    unfold listTables getCache
    rw [hl]
    simp [show now - ts < cacheTimeout from hf, ht]
  · intro env now st name v ts hv hl hf ht
    unfold getTableRowCount getCache
    rw [hv, hl]
    simp [show now - ts < cacheTimeout from hf, ht]
  · intro env now st r hl hp hq
    unfold listDatabases
    rw [getCache_none st now "databases" hl]
    dsimp only
    unfold listDatabasesRun connQuery
    rw [hp, hq]
  · intro env now st r hl hp hq
    unfold listTables
    rw [getCache_none st now ("tables_" ++ st.database) hl]
    dsimp only
    unfold listTablesRun connQuery
    rw [hp, hq]
  · intro env now st name r hv hl hp hq
    unfold getTableRowCount
    rw [hv]
    dsimp only
    rw [getCache_none st now ("rowcount_" ++ name) hl]
    dsimp only
    unfold getTableRowCountRun safeIdentifierQuery
    rw [sanitizeIdentifier_of_valid name hv]
    dsimp only
    rw [replaceFirst_count_sql, count_sql_quote]
    unfold connQuery
    rw [hp, hq]
    simp
  · intro env st name
    unfold describeTable
    split
    · cases connQuery env st describeTableSql [name] with
      | mk r calls => cases r <;> rfl
    · rfl

/-- Witness for the amended claim C9 at concrete inputs. -/
theorem claim_C9_metadata_cache_witness :
    listDatabases envOK 10 { conn0 with
        cache := [("databases", .rows [[("datname", "postgres")]], 0)] }
      = (.ok [[("datname", "postgres")]], { conn0 with
          cache := [("databases", .rows [[("datname", "postgres")]], 0)] }, []) ∧
    listTables envOK 10 { conn0 with
        cache := [("tables_postgres", .rows [[("table_name", "t")]], 0)] }
      = (.ok [[("table_name", "t")]], { conn0 with
          cache := [("tables_postgres", .rows [[("table_name", "t")]], 0)] }, []) ∧
    getTableRowCount envOK 10 { conn0 with
        cache := [("rowcount_t", .num (.int 5), 0)] } "t"
      = (.ok (.int 5), { conn0 with cache := [("rowcount_t", .num (.int 5), 0)] }, []) ∧
    getTableRowCount envCount0 0 conn0 "t"
      = (.ok (.int 0), setCache conn0 0 "rowcount_t" (.num (.int 0)),
         [("SELECT COUNT(*) FROM \"t\"", [])]) ∧
    (describeTable envOK conn0 "t").2.1 = conn0 := by
  refine ⟨?_, ?_, ?_, ?_, ?_⟩
  · exact claim_C9_metadata_cache.1 envOK 10 _ (.rows [[("datname", "postgres")]]) 0
      rfl (by decide) rfl
  · exact claim_C9_metadata_cache.2.1 envOK 10 _ (.rows [[("table_name", "t")]]) 0
      rfl (by decide) rfl
  · exact claim_C9_metadata_cache.2.2.1 envOK 10 _ "t" (.num (.int 5)) 0 rfl
      rfl (by decide) rfl
  · exact claim_C9_metadata_cache.2.2.2.2.2.1 envCount0 0 conn0 "t"
      { rows := [[("count", "0")]], command := "SELECT", rowCount := 1 } rfl rfl rfl rfl
  · exact claim_C9_metadata_cache.2.2.2.2.2.2 envOK conn0 "t"

/-- Claim C4 (corrected), counterexample: the HTTP route POST /api/query
executes the write statement DROP TABLE users although
validateCustomQuery rejects that string — the route never calls the
validator, and a database call is made. -/
theorem claim_C4_counterexample :
    validateCustomQuery "DROP TABLE users" = .error .notReadOnly ∧
    (apiQuery envOK (some conn0) "DROP TABLE users").2 = [("DROP TABLE users", [])] ∧
    (apiQuery envOK (some conn0) "DROP TABLE users").1
      = .ok { rows := [], command := "OK", rowCount := 0 } :=
  ⟨rfl, rfl, rfl⟩

/-- Claim C4 as amended: on the CLI path a custom query executes only
after validateCustomQuery accepts its trimmed input, and a rejection
means no database call at all; the HTTP route /api/query, by contrast,
forwards every nonempty SQL string to the database with no read-only
validation. -/
theorem claim_C4_custom_query (env : Env) (st : Conn) :
    (∀ input r, cliCustomQuery env st input = some r →
      (∃ s, validateCustomQuery (jsTrim input) = .ok s) ∧
      r = connQuery env st input []) ∧
    (∀ input e, validateCustomQuery (jsTrim input) = .error e →
      cliCustomQuery env st input = none) ∧
    (∀ sql, sql ≠ "" → apiQuery env (some st) sql = connQuery env st sql []) := by
  refine ⟨?_, ?_, ?_⟩
  · intro input r h
    unfold cliCustomQuery at h
    by_cases ht : jsTrim input = ""
    · rw [if_pos ht] at h; cases h
    · rw [if_neg ht] at h
      cases hv : validateCustomQuery (jsTrim input) with
      | error e => rw [hv] at h; cases h
      | ok s =>
        rw [hv] at h
        exact ⟨⟨s, rfl⟩, (Option.some.injEq _ _ ▸ h).symm⟩
  · intro input e hv
    unfold cliCustomQuery
    by_cases ht : jsTrim input = ""
    · rw [if_pos ht]
    · rw [if_neg ht, hv]
  · intro sql h
    unfold apiQuery
    dsimp only
    rw [if_neg h]

/-- Witness for the amended claim C4 at concrete inputs. -/
theorem claim_C4_custom_query_witness :
    ((∃ s, validateCustomQuery (jsTrim "  select 1 ") = .ok s) ∧
      connQuery envOK conn0 "  select 1 " [] = connQuery envOK conn0 "  select 1 " []) ∧
    cliCustomQuery envOK conn0 "drop table users" = none ∧
    apiQuery envOK (some conn0) "DROP TABLE users"
      = connQuery envOK conn0 "DROP TABLE users" [] :=
  ⟨(claim_C4_custom_query envOK conn0).1 "  select 1 "
      (connQuery envOK conn0 "  select 1 " []) rfl,
    (claim_C4_custom_query envOK conn0).2.1 "drop table users" .notReadOnly rfl,
    (claim_C4_custom_query envOK conn0).2.2 "DROP TABLE users" (by decide)⟩

/-- Claim C1 (corrected), counterexample: the HTTP route POST /api/tables
interpolates the raw table name into CREATE TABLE with no validation —
for a name containing quotes, spaces and a semicolon, the issued SQL
embeds it verbatim although isValidTableName rejects it and
sanitizeIdentifier would have altered it. -/
theorem claim_C1_counterexample :
    (apiCreateTable envOK (some conn0) badName "id int").2
      = [("CREATE TABLE \"" ++ badName ++ "\" (id int)", [])] ∧
    strContains ("CREATE TABLE \"" ++ badName ++ "\" (id int)") badName = true ∧
    isValidTableName badName = false ∧
    sanitizeIdentifier badName = .ok "xDROPTABLEusers" ∧
    "xDROPTABLEusers" ≠ badName :=
  ⟨rfl, rfl, rfl, rfl, by decide⟩

/-- Claim C1 as amended: identifiers that reach SQL through the
DatabaseConnection layer are validated first — createDatabase,
dropDatabase and switchDatabase reject an invalid database name without
issuing any driver call, describeTable and getTableRowCount reject an
invalid table name likewise, and safeIdentifierQuery interpolates only
the output of sanitizeIdentifier — but the HTTP API routes interpolate
the externally supplied identifier verbatim, with no validation. -/
theorem claim_C1_identifier_validation :
    (∀ env st name, isValidDatabaseName name = false →
      createDatabase env st name = (.error .invalidIdentifier, st, []) ∧
      dropDatabase env st name = (.error .invalidIdentifier, st, []) ∧
      switchDatabase env st name = (.error .invalidIdentifier, st, [])) ∧
    (∀ env st name, isValidTableName name = false →
      describeTable env st name = (.error .invalidIdentifier, st, []) ∧
      ∀ now, getTableRowCount env now st name = (.error .invalidIdentifier, st, [])) ∧
    (∀ env st sql ident params e, sanitizeIdentifier ident = .error e →
      safeIdentifierQuery env st sql ident params = (.error e, [])) ∧
    (∀ env st sql ident params s, sanitizeIdentifier ident = .ok s →
      safeIdentifierQuery env st sql ident params
        = connQuery env st (replaceFirst sql "{identifier}" ("\"" ++ s ++ "\"")) params) ∧
    (∀ env st name columns, name ≠ "" → columns ≠ "" →
      apiCreateTable env (some st) name columns
        = connQuery env st ("CREATE TABLE \"" ++ name ++ "\" (" ++ columns ++ ")") []) ∧
    (∀ env st name lim, lim ≠ "" →
      apiTableData env (some st) name (some lim)
        = connQuery env st ("SELECT * FROM \"" ++ name ++ "\" LIMIT " ++ lim) []) := by
  refine ⟨?_, ?_, ?_, ?_, ?_, ?_⟩
  · intro env st name h
    exact ⟨by simp [createDatabase, h], by simp [dropDatabase, h], by simp [switchDatabase, h]⟩
  · intro env st name h
    exact ⟨by simp [describeTable, h], fun now => by simp [getTableRowCount, h]⟩
  · intro env st sql ident params e h
    simp [safeIdentifierQuery, h]
  · intro env st sql ident params s h
    simp [safeIdentifierQuery, h]
  · intro env st name columns h1 h2
    unfold apiCreateTable
    dsimp only
    rw [if_neg h1, if_neg h2]
  · intro env st name lim h
    unfold apiTableData
    dsimp only
    rw [if_neg h]

/-- Witness for the amended claim C1 at concrete inputs. -/
theorem claim_C1_identifier_validation_witness :
    createDatabase envOK conn0 "bad name" = (.error .invalidIdentifier, conn0, []) ∧
    describeTable envOK conn0 "bad name" = (.error .invalidIdentifier, conn0, []) ∧
    safeIdentifierQuery envOK conn0 "SELECT COUNT(*) FROM {identifier}" "" []
      = (.error .invalidIdentifier, []) ∧
    safeIdentifierQuery envOK conn0 "SELECT COUNT(*) FROM {identifier}" "t" []
      = connQuery envOK conn0
          (replaceFirst "SELECT COUNT(*) FROM {identifier}" "{identifier}" "\"t\"") [] ∧
    apiCreateTable envOK (some conn0) badName "id int"
      = connQuery envOK conn0 ("CREATE TABLE \"" ++ badName ++ "\" (id int)") [] ∧
    apiTableData envOK (some conn0) badName (some "5; --")
      = connQuery envOK conn0 ("SELECT * FROM \"" ++ badName ++ "\" LIMIT 5; --") [] := by
  refine ⟨?_, ?_, ?_, ?_, ?_, ?_⟩
  · exact (claim_C1_identifier_validation.1 envOK conn0 "bad name" rfl).1
  · exact (claim_C1_identifier_validation.2.1 envOK conn0 "bad name" rfl).1
  · exact claim_C1_identifier_validation.2.2.1 envOK conn0
      "SELECT COUNT(*) FROM {identifier}" "" [] .invalidIdentifier rfl
  · exact claim_C1_identifier_validation.2.2.2.1 envOK conn0
      "SELECT COUNT(*) FROM {identifier}" "t" [] "t" rfl
  · exact claim_C1_identifier_validation.2.2.2.2.1 envOK conn0 badName "id int"
      (by decide) (by decide)
  · have h := claim_C1_identifier_validation.2.2.2.2.2 envOK conn0 badName "5; --"
      (by decide)
    rw [h]
    rfl

/-- Claim C10 (confirmed): sanitizeIdentifier accepts "2cool" unchanged,
but the name validators reject it because it begins with a digit, so
the sanitizer's output is not in general accepted by
isValidDatabaseName / isValidTableName. -/
theorem claim_C10_sanitizer_validator_gap :
    sanitizeIdentifier "2cool" = .ok "2cool" ∧
    isValidDatabaseName "2cool" = false ∧
    isValidTableName "2cool" = false :=
  ⟨rfl, rfl, rfl⟩

end PGTool
